import Mathlib

/-!
Shallow embedding of `signal_email_bridge.py` (class `SignalEmailBridge`).

The Python code reads JSON objects with `.get` and string defaults; we model
each JSON field as an `Option`, with `Option.getD` standing for `.get` with a
default.  A JSON value of `null` behaves in the Python code exactly like a
missing key at every use site (all uses are truthiness tests or happen only
under a truthiness guard), so `none` models both.  HTTP responses are modeled
by an oracle from URL strings to an `HttpResult`; `requests.raise_for_status`
raises exactly for status codes in 400..599.  Bytes are modeled as `List Nat`.
The `msmtp` subprocess is modeled by an `Option Int` outcome: `none` is an
exception while invoking it, `some rc` an exit with return code `rc`.
The `MIMEImage` constructor guesses the image subtype from the bytes and
raises a TypeError when the bytes are not a recognizable image format; that
exception is caught by the per-attachment handler and the attachment is
skipped.  The subtype detector is part of the email library, not of this
program, so it is modeled as an oracle on byte strings in the environment.
Timestamp formatting (`datetime.fromtimestamp(ts/1000).strftime(...)`) is
modeled as a total function of the epoch milliseconds and a fixed local
timezone offset in seconds, using the standard Gregorian civil-from-days
algorithm; sub-second parts are truncated exactly as `%S` truncates them.
-/

namespace SignalBridge

/-- Attachment descriptor as found in a Signal data message.  Fields mirror
the JSON keys read by the code: `id`, `contentType`, `filename`, `size`. -/
structure Attachment where
  id : Option String
  contentType : Option String
  filename : Option String
  size : Option Nat
deriving Repr, DecidableEq

/-- Data-message payload: free text and declared attachment descriptors. -/
structure DataMessage where
  message : Option String
  attachments : Option (List Attachment)
deriving Repr, DecidableEq

/-- Envelope of one raw message. -/
structure Envelope where
  sourceNumber : Option String
  sourceName : Option String
  timestamp : Option Nat
  dataMessage : Option DataMessage
deriving Repr, DecidableEq

/-- Raw message as returned by the receive endpoint. -/
structure RawMessage where
  envelope : Option Envelope
deriving Repr, DecidableEq

/-- Result of one HTTP GET: a network-level error, or a response with a
status code and a body. -/
inductive HttpResult (α : Type) where
  | netErr : HttpResult α
  | resp (status : Nat) (body : α) : HttpResult α
deriving Repr, DecidableEq

/-- Status codes for which `requests.Response.raise_for_status` raises:
exactly the 4xx and 5xx ranges. -/
def raisesForStatus (status : Nat) : Prop := 400 ≤ status ∧ status < 600

instance (status : Nat) : Decidable (raisesForStatus status) := by
  unfold raisesForStatus; infer_instance

/-- Python string interpolation of a possibly-absent value: `None` prints as
the literal string "None" inside an f-string. -/
def pyStr : Option String → String
  | some s => s
  | none => "None"

/-- Configuration held by the `SignalEmailBridge` object. -/
structure Config where
  api_url : String
  phone_number : String
  email_to : String
  email_from : String
deriving Repr, DecidableEq

/-- Environment one bridge run interacts with: the two HTTP endpoints
(attachment bytes, receive JSON), the `MIMEImage` subtype detector of the
email library (`true` when the byte string is recognized as an image format
and the constructor succeeds; `false` when it raises a TypeError, caught by
the per-attachment handler), the `msmtp` outcome, and the local timezone
offset in seconds used by `datetime.fromtimestamp`. -/
structure World where
  httpBytes : String → HttpResult (List Nat)
  httpJson : String → HttpResult (Option (List RawMessage))
  imageSubtypeKnown : List Nat → Bool
  msmtpExit : Option Int
  tzOffset : Nat

/-- URL used by `download_attachment`. -/
def attachmentUrl (api_url attachment_id : String) : String :=
  api_url ++ "/v1/attachments/" ++ attachment_id

/-- Model of `download_attachment`: GET the attachment URL, return the raw
bytes, and catch every failure (network error or a raising status code),
returning `none` in that case (the Python code returns `None`). -/
def download_attachment (httpBytes : String → HttpResult (List Nat))
    (api_url attachment_id : String) : Option (List Nat) :=
  match httpBytes (attachmentUrl api_url attachment_id) with
  | HttpResult.netErr => none
  | HttpResult.resp status body =>
      if raisesForStatus status then none else some body

/-- One binary part of the multi-part email (a `MIMEImage` with a
Content-Disposition filename). -/
structure EmailPart where
  filename : String
  content : List Nat
deriving Repr, DecidableEq

/-- The composed email document. -/
structure OutboundEmail where
  subject : String
  emailFrom : String
  emailTo : String
  body : String
  parts : List EmailPart
deriving Repr, DecidableEq

/-- Model of the Python string method `startswith`: prefix test on the
character sequence. -/
def startswith (s pre : String) : Bool :=
  pre.data.isPrefixOf s.data

/-- Decision made by the attachment loop body of `send_email_with_attachments`
once the download result for one descriptor is known: embed a binary part
only when the content is truthy (non-`None` and non-empty), the declared
content type starts with "image/", and the `MIMEImage` subtype detector
`known` recognizes the bytes as an image format; when it does not, the
constructor raises a TypeError that the per-attachment handler catches, so
the attachment is skipped. -/
def embedFromContent (known : List Nat → Bool) (content : Option (List Nat))
    (a : Attachment) : Option EmailPart :=
  match content with
  | none => none
  | some c =>
      if c = [] then none
      else if startswith (a.contentType.getD "") "image/" then
        if known c then some ⟨a.filename.getD "attachment", c⟩ else none
      else none

/-- One iteration of the attachment loop: download, then decide. -/
def embedPart (known : List Nat → Bool)
    (httpBytes : String → HttpResult (List Nat)) (api_url : String)
    (a : Attachment) : Option EmailPart :=
  embedFromContent known (download_attachment httpBytes api_url (pyStr a.id)) a

/-- Model of `runMsmtp`: invoking the subprocess either raises (`none`) or
exits with a code; a non-zero code is turned into a raised exception by the
code itself. -/
def runMsmtp : Option Int → Except String Unit
  | none => Except.error "exception while invoking msmtp"
  | some rc =>
      if rc ≠ 0 then Except.error ("msmtp returned " ++ toString rc)
      else Except.ok ()

/-- Model of `send_email_with_attachments`: build the multi-part document
(text body plus the embedded image parts), hand it to `msmtp`, and report
`false` on any failure, `true` otherwise.  Returns the composed email
together with the success flag. -/
def send_email_with_attachments (w : World) (cfg : Config)
    (subject body : String) (attachments : List Attachment) :
    OutboundEmail × Bool :=
  let parts := attachments.filterMap
    (embedPart w.imageSubtypeKnown w.httpBytes cfg.api_url)
  let msg : OutboundEmail := ⟨subject, cfg.email_from, cfg.email_to, body, parts⟩
  match runMsmtp w.msmtpExit with
  | Except.error _ => (msg, false)
  | Except.ok _ => (msg, true)

/-- URL used by `receive_messages`. -/
def receiveUrl (cfg : Config) : String :=
  cfg.api_url ++ "/v1/receive/" ++ cfg.phone_number

/-- Model of `receive_messages`: GET the receive URL and decode the JSON
body; any failure (network error, raising status code, or an undecodable
body) is caught and `none` (the Python `None`) is returned.  The body oracle
already carries the decoded value, `none` standing for a `.json()` call that
raises. -/
def receive_messages (w : World) (cfg : Config) : Option (List RawMessage) :=
  match w.httpJson (receiveUrl cfg) with
  | HttpResult.netErr => none
  | HttpResult.resp status decoded =>
      if raisesForStatus status then none else decoded

/-- Two-digit zero padding, as produced by strftime for months, days, hours,
minutes and seconds. -/
def pad2 (n : Nat) : String :=
  if n < 10 then "0" ++ toString n else toString n

/-- Four-digit zero padding for the year. -/
def pad4 (n : Nat) : String :=
  if n < 10 then "000" ++ toString n
  else if n < 100 then "00" ++ toString n
  else if n < 1000 then "0" ++ toString n
  else toString n

/-- Gregorian date (year, month, day) of a day count since 1970-01-01, by
the standard civil-from-days algorithm. -/
def civilFromDays (days : Nat) : Nat × Nat × Nat :=
  let z := days + 719468
  let era := z / 146097
  let doe := z % 146097
  let yoe := (doe - doe / 1460 + doe / 36524 - doe / 146097) / 365
  let y := yoe + era * 400
  let doy := doe - (365 * yoe + yoe / 4 - yoe / 100)
  let mp := (5 * doy + 2) / 153
  let d := doy - (153 * mp + 2) / 5 + 1
  let m := if mp < 10 then mp + 3 else mp - 9
  (if m ≤ 2 then y + 1 else y, m, d)

/-- Render a (nonnegative local) epoch-second count in the strftime format
"%Y-%m-%d %H:%M:%S". -/
def formatEpochSeconds (s : Nat) : String :=
  let days := s / 86400
  let secs := s % 86400
  let c := civilFromDays days
  pad4 c.1 ++ "-" ++ pad2 c.2.1 ++ "-" ++ pad2 c.2.2 ++ " " ++
    pad2 (secs / 3600) ++ ":" ++ pad2 (secs % 3600 / 60) ++ ":" ++
    pad2 (secs % 60)

/-- Model of `datetime.fromtimestamp(timestamp/1000).strftime(...)` for a
fixed local timezone offset: local epoch seconds (milliseconds floored to
seconds, which is how second-precision strftime output truncates), then the
civil rendering. -/
def formatTimestamp (tzOffset : Nat) (timestampMs : Nat) : String :=
  formatEpochSeconds (timestampMs / 1000 + tzOffset)

/-- Envelope extraction, line `message.get('envelope', {})`. -/
def msgEnvelope (m : RawMessage) : Envelope :=
  m.envelope.getD ⟨none, none, none, none⟩

/-- Source number extraction, default "Unknown". -/
def msgSourceNumber (m : RawMessage) : String :=
  (msgEnvelope m).sourceNumber.getD "Unknown"

/-- Source name extraction, default the empty string. -/
def msgSourceName (m : RawMessage) : String :=
  (msgEnvelope m).sourceName.getD ""

/-- Timestamp extraction, default 0. -/
def msgTimestamp (m : RawMessage) : Nat :=
  (msgEnvelope m).timestamp.getD 0

/-- Data-message extraction, default the empty object. -/
def msgDataMessage (m : RawMessage) : DataMessage :=
  (msgEnvelope m).dataMessage.getD ⟨none, none⟩

/-- Text extraction, line `data_message.get('message', '')`. -/
def msgContent (m : RawMessage) : String :=
  (msgDataMessage m).message.getD ""

/-- Attachment-list extraction, line `data_message.get('attachments', [])`. -/
def msgAttachments (m : RawMessage) : List Attachment :=
  (msgDataMessage m).attachments.getD []

/-- Label used in the From line of the body and in the subject. -/
def fromLabel (source_name source_number : String) : String :=
  if source_name = "" then source_number
  else source_name ++ " (" ++ source_number ++ ")"

/-- One attachment listing entry of the body, index shown in brackets. -/
def attachmentLine (idx : Nat) (a : Attachment) : String :=
  "[" ++ toString idx ++ "] Type: " ++ a.contentType.getD "unknown" ++ "\n" ++
    "    Size: " ++ (match a.size with
      | some n => toString n
      | none => "unknown") ++ " bytes\n"

/-- The attachment listing loop, `for idx, att in enumerate(attachments, 1)`,
accumulating one entry per declared attachment starting at `idx`. -/
def attachmentListing : Nat → List Attachment → String
  | _, [] => ""
  | idx, a :: rest => attachmentLine idx a ++ attachmentListing (idx + 1) rest

/-- Model of `process_message`: extract the fields, drop the message when it
has neither text nor attachments, otherwise compose subject and body and call
`send_email_with_attachments` exactly once.  `none` means no email was
composed and no send was attempted; `some (email, ok)` is the one composed
email together with its send result. -/
def process_message (w : World) (cfg : Config) (m : RawMessage) :
    Option (OutboundEmail × Bool) :=
  let source_number := msgSourceNumber m
  let source_name := msgSourceName m
  let content := msgContent m
  let attachments := msgAttachments m
  if content = "" ∧ attachments = [] then none
  else
    let date := formatTimestamp w.tzOffset (msgTimestamp m)
    let subject :=
      if source_name = "" then
        "Signal Message from " ++ source_number ++ " at " ++ date
      else
        "Signal Message from " ++ source_name ++ " (" ++ source_number ++
          ") at " ++ date
    let body :=
      "\nFrom: " ++ fromLabel source_name source_number ++
        "\nTime: " ++ date ++ "\n\nMessage:\n" ++
        (if content = "" then "<no message>" else content) ++
        "\n\nAttachments:\n" ++
        (if attachments = [] then "<no attachments>"
         else attachmentListing 1 attachments)
    some (send_email_with_attachments w cfg subject body attachments)

/-- Number of email sends attempted while processing one message: the some
branch of `process_message` invokes `send_email_with_attachments` exactly
once, the none branch never does. -/
def sendAttempts (w : World) (cfg : Config) (m : RawMessage) : Nat :=
  match process_message w cfg m with
  | none => 0
  | some _ => 1

/-- State of the driving loop after consuming a finite prefix of cycle
inputs: still polling, or stopped by an interrupt. -/
inductive LoopStatus where
  | running : LoopStatus
  | stopped : LoopStatus
deriving Repr, DecidableEq

/-- Input of one loop iteration: whether a KeyboardInterrupt arrives during
it, whether some other exception escapes the iteration body (caught by the
blanket handler), and the environment the iteration runs against. -/
structure CycleInput where
  interrupt : Bool
  bodyError : Bool
  world : World

/-- What one successful iteration body does: fetch, and if the fetch yielded
a truthy message list, process every message sequentially. -/
def cycleReports (c : CycleInput) (cfg : Config) :
    List (Option (OutboundEmail × Bool)) :=
  match receive_messages c.world cfg with
  | none => []
  | some ms => ms.map (process_message c.world cfg)

/-- Model of `run`: consume a finite prefix of cycle inputs.  A
KeyboardInterrupt breaks the loop into the stopped state; any other
exception in the body is caught, the cycle report is abandoned, and the loop
sleeps and continues; otherwise the full cycle runs.  Returns the per-cycle
reports together with the loop status after the prefix. -/
def runLoop (cfg : Config) :
    List CycleInput → List (List (Option (OutboundEmail × Bool))) × LoopStatus
  | [] => ([], LoopStatus.running)
  | c :: rest =>
      if c.interrupt then ([], LoopStatus.stopped)
      else
        let rep := if c.bodyError then [] else cycleReports c cfg
        let r := runLoop cfg rest
        (rep :: r.1, r.2)

/-- Subject line as the spec words it: "Signal Message from {sourceName}
({sourceNumber}) at {formattedTimestamp}" when sourceName is non-empty, else
"Signal Message from {sourceNumber} at {formattedTimestamp}". -/
def spec_subject (source_name source_number date : String) : String :=
  if source_name = "" then
    "Signal Message from " ++ source_number ++ " at " ++ date
  else
    "Signal Message from " ++ source_name ++ " (" ++ source_number ++
      ") at " ++ date

/-- One listing entry as the spec words it: "[index] Type:
{contentType-or-unknown}" and "Size: {size-or-unknown} bytes" on the
template's indented second line. -/
def spec_attachmentEntry (idx : Nat) (a : Attachment) : String :=
  "[" ++ toString idx ++ "] Type: " ++ a.contentType.getD "unknown" ++ "\n" ++
    "    Size: " ++ (match a.size with
      | some n => toString n
      | none => "unknown") ++ " bytes\n"

/-- Attachment section as the spec words it: each declared attachment listed
in order starting at index 1, or the placeholder when none were declared. -/
def spec_attachmentSection (atts : List Attachment) : String :=
  if atts = [] then "<no attachments>"
  else String.join ((List.enumFrom 1 atts).map
    (fun p => spec_attachmentEntry p.1 p.2))

/-- Body as the spec words it: the fixed template with sections From, Time,
Message (literal text or the no-message placeholder) and Attachments. -/
def spec_body (from_label date content : String) (atts : List Attachment) :
    String :=
  "\nFrom: " ++ from_label ++ "\nTime: " ++ date ++ "\n\nMessage:\n" ++
    (if content = "" then "<no message>" else content) ++
    "\n\nAttachments:\n" ++ spec_attachmentSection atts

/-- Example configuration. -/
def cfgEx : Config :=
  ⟨"http://localhost:8080", "+31612345678", "you@example.com", "signal@local"⟩

/-- Round-trip example message of the spec: Alice, one text, no
attachments. -/
def aliceMsg : RawMessage :=
  ⟨some ⟨some "+15551234567", some "Alice", some 1700000000000,
    some ⟨some "Hello", none⟩⟩⟩

/-- Concrete subtype-detector verdict used in examples: recognizes exactly
the byte strings opening with the PNG signature, as the real detector does
for PNG files, and rejects everything else (in particular short junk bytes,
which match no known image format). -/
def pngDetector : List Nat → Bool :=
  fun c => c.take 8 = [137, 80, 78, 71, 13, 10, 26, 10]

/-- Environment where every HTTP call fails at the network level, `msmtp`
exits 0, and the local timezone is UTC. -/
def quietWorld : World :=
  ⟨fun _ => HttpResult.netErr, fun _ => HttpResult.netErr, pngDetector,
    some 0, 0⟩

/-- Attachment descriptor declaring an image type. -/
def imgAttachment : Attachment :=
  ⟨some "a1", some "image/png", some "photo.png", some 5⟩

/-- Attachment descriptor declaring a non-image type. -/
def pdfAttachment : Attachment :=
  ⟨some "a2", some "application/pdf", some "doc.pdf", none⟩

/-- Message carrying two attachment descriptors and no text. -/
def twoAttachmentMsg : RawMessage :=
  ⟨some ⟨some "+15551234567", none, some 1700000000000,
    some ⟨none, some [imgAttachment, pdfAttachment]⟩⟩⟩

/-- Byte endpoint delivering an empty 200-status body for every URL: the
download succeeds and yields zero bytes. -/
def emptyBytesHttp : String → HttpResult (List Nat) :=
  fun _ => HttpResult.resp 200 []

/-- Byte endpoint answering status 304 with two bytes for every URL. -/
def status304Http : String → HttpResult (List Nat) :=
  fun _ => HttpResult.resp 304 [9, 9]

/-- Byte endpoint delivering a 200-status body of two bytes that match no
image format, for every URL. -/
def junkBytesHttp : String → HttpResult (List Nat) :=
  fun _ => HttpResult.resp 200 [1, 2]

/-- Environment whose receive endpoint answers status 300 carrying one
decodable message. -/
def status300World : World :=
  ⟨fun _ => HttpResult.netErr, fun _ => HttpResult.resp 300 (some [aliceMsg]),
    pngDetector, some 0, 0⟩

/-- Appending to a string join: the join of a cons is the head appended to
the join of the tail. -/
theorem join_cons (s : String) (l : List String) :
    String.join (s :: l) = s ++ String.join l := by
  cases s with
  | mk d =>
    apply String.ext
    simp [String.join_eq]

/-- The accumulating listing loop renders the same text as a join over the
enumeration of the attachments from any start index. -/
theorem attachmentListing_eq_join (n : Nat) (l : List Attachment) :
    attachmentListing n l =
      String.join ((List.enumFrom n l).map
        (fun p => spec_attachmentEntry p.1 p.2)) := by
  induction l generalizing n with
  | nil => rfl
  | cons a rest ih =>
    simp only [attachmentListing, List.enumFrom, List.map_cons, join_cons, ih]
    rfl

/-- The email document built by `send_email_with_attachments` does not
depend on the `msmtp` outcome: it is the given subject, addresses and body
together with the embedded parts computed from the attachment downloads. -/
theorem send_email_fst (w : World) (cfg : Config) (s b : String)
    (atts : List Attachment) :
    (send_email_with_attachments w cfg s b atts).1 =
      ⟨s, cfg.email_from, cfg.email_to, b,
        atts.filterMap (embedPart w.imageSubtypeKnown w.httpBytes cfg.api_url)⟩ := by
  unfold send_email_with_attachments
  cases runMsmtp w.msmtpExit <;> rfl

/-- Claim C1: a raw message is dropped by `process_message` (no email
composed, no send attempted) exactly when its extracted text is empty and
its extracted attachment list is empty; this emptiness test is the sole
content-based filtering rule. -/
theorem C1_empty_message_not_forwarded (w : World) (cfg : Config)
    (m : RawMessage) :
    process_message w cfg m = none ↔
      (msgContent m = "" ∧ msgAttachments m = []) := by
  unfold process_message
  dsimp only
  split
  · simp_all
  · simp_all

/-- Claim C2: a raw message with non-empty extracted text or a non-empty
extracted attachment list leads to exactly one send attempt, whatever the
environment (so regardless of download results and of the send outcome). -/
theorem C2_nonempty_message_one_send_attempt (w : World) (cfg : Config)
    (m : RawMessage) (h : msgContent m ≠ "" ∨ msgAttachments m ≠ []) :
    sendAttempts w cfg m = 1 := by
  unfold sendAttempts process_message
  have hn : ¬ (msgContent m = "" ∧ msgAttachments m = []) := by tauto
  dsimp only
  simp [hn]

/-- Witness for claim C2 at the concrete Alice message. -/
theorem C2_nonempty_message_one_send_attempt_witness :
    sendAttempts quietWorld cfgEx aliceMsg = 1 :=
  C2_nonempty_message_one_send_attempt quietWorld cfgEx aliceMsg
    (Or.inl (by decide))

/-- Counterexample to claim C3 as stated: embedding is not equivalent to
image-type-and-download-success.  First, for an attachment declaring an
image content-type whose download succeeds with zero bytes, the download
succeeded and the type test holds, yet no binary part is embedded.  Second,
for the same descriptor downloading non-empty bytes that match no image
format, the `MIMEImage` constructor raises, the per-attachment handler
catches, and again no binary part is embedded. -/
theorem C3_embed_iff_counterexample :
    (download_attachment emptyBytesHttp "http://localhost:8080"
        (pyStr imgAttachment.id) = some []
      ∧ startswith (imgAttachment.contentType.getD "") "image/" = true
      ∧ embedPart pngDetector emptyBytesHttp "http://localhost:8080"
          imgAttachment = none)
    ∧ (download_attachment junkBytesHttp "http://localhost:8080"
        (pyStr imgAttachment.id) = some [1, 2]
      ∧ [1, 2] ≠ ([] : List Nat)
      ∧ pngDetector [1, 2] = false
      ∧ embedPart pngDetector junkBytesHttp "http://localhost:8080"
          imgAttachment = none) := by
  decide

/-- Claim C3 (amended): an attachment is embedded as a binary part exactly
when its declared content-type starts with "image/", its download succeeded
with non-empty content, and the `MIMEImage` subtype detector recognizes
that content as an image format (otherwise the raised TypeError is caught
and the attachment skipped), the filename being preserved in the part; the
email parts are exactly these; and the composed subject and body, and
whether a send is attempted, do not depend on the download, detector or
send environment (so a failed download or embed never prevents the listing
or the send). -/
theorem C3_embed_rule_amended :
    (∀ (known : List Nat → Bool) (hb : String → HttpResult (List Nat))
        (api : String) (a : Attachment) (p : EmailPart),
        embedPart known hb api a = some p ↔
          (startswith (a.contentType.getD "") "image/" = true ∧
            download_attachment hb api (pyStr a.id) = some p.content ∧
            p.content ≠ [] ∧ known p.content = true ∧
            p.filename = a.filename.getD "attachment"))
    ∧ (∀ (w : World) (cfg : Config) (s b : String) (atts : List Attachment),
        (send_email_with_attachments w cfg s b atts).1.parts =
          atts.filterMap
            (embedPart w.imageSubtypeKnown w.httpBytes cfg.api_url))
    ∧ (∀ (w w' : World) (cfg : Config) (m : RawMessage),
        w.tzOffset = w'.tzOffset →
          ((process_message w cfg m).map (fun r => (r.1.subject, r.1.body)) =
              (process_message w' cfg m).map
                (fun r => (r.1.subject, r.1.body))
            ∧ (process_message w cfg m).isSome =
              (process_message w' cfg m).isSome)) := by
  refine ⟨?_, ?_, ?_⟩
  · intro known hb api a p
    obtain ⟨pf, pc⟩ := p
    unfold embedPart embedFromContent
    cases hd : download_attachment hb api (pyStr a.id) with
    | none => simp [hd]
    | some c =>
      by_cases hc : c = []
      · subst hc
        simp
        intro _ h2 h3
        exact absurd h2 h3
      · by_cases hs : startswith (a.contentType.getD "") "image/"
        · by_cases hk : known c
          · simp [hc, hs, hk, EmailPart.mk.injEq]
            aesop
          · simp [hc, hs, hk]
            aesop
        · simp [hc, hs]
  · intro w cfg s b atts
    rw [send_email_fst]
  · intro w w' cfg m h
    unfold process_message
    dsimp only
    split
    · simp
    · constructor
      · simp only [Option.map_some']
        rw [send_email_fst, send_email_fst]
        rw [h]
      · simp

/-- Witness for claim C3 (amended) at two concrete environments differing
in both HTTP endpoints and the send outcome. -/
theorem C3_embed_rule_amended_witness :
    ((process_message quietWorld cfgEx twoAttachmentMsg).map
        (fun r => (r.1.subject, r.1.body)) =
      (process_message status300World cfgEx twoAttachmentMsg).map
        (fun r => (r.1.subject, r.1.body)))
    ∧ (process_message quietWorld cfgEx twoAttachmentMsg).isSome =
        (process_message status300World cfgEx twoAttachmentMsg).isSome :=
  C3_embed_rule_amended.2.2 quietWorld status300World cfgEx twoAttachmentMsg
    (by decide)

/-- Counterexample to claim C4 as stated: a response with the non-2xx
status 304 is not treated as a failure; `download_attachment` returns its
raw bytes, because `raise_for_status` raises only for 4xx and 5xx. -/
theorem C4_non2xx_download_counterexample :
    download_attachment status304Http "http://localhost:8080" "att7" =
        some [9, 9]
      ∧ ¬ (200 ≤ 304 ∧ 304 < 300) := by
  decide

/-- Claim C4 (amended): `download_attachment` returns the raw response
bytes for any response whose status does not raise (all statuses outside
4xx and 5xx, hence all 2xx) and returns no content on a network error or a
4xx or 5xx status; a descriptor whose download yields no content is simply
skipped, the email built from the remaining attachments being identical. -/
theorem C4_download_failure_handling :
    (∀ (hb : String → HttpResult (List Nat)) (api id : String),
        (hb (attachmentUrl api id) = HttpResult.netErr →
          download_attachment hb api id = none)
        ∧ (∀ (st : Nat) (b : List Nat),
            hb (attachmentUrl api id) = HttpResult.resp st b →
              ((raisesForStatus st → download_attachment hb api id = none)
                ∧ (¬ raisesForStatus st →
                    download_attachment hb api id = some b))))
    ∧ (∀ (w : World) (cfg : Config) (s b : String) (a : Attachment)
        (rest : List Attachment),
        download_attachment w.httpBytes cfg.api_url (pyStr a.id) = none →
          send_email_with_attachments w cfg s b (a :: rest) =
            send_email_with_attachments w cfg s b rest) := by
  constructor
  · intro hb api id
    constructor
    · intro h
      unfold download_attachment
      rw [h]
    · intro st b h
      constructor
      · intro hr
        unfold download_attachment
        rw [h]
        simp [hr]
      · intro hnr
        unfold download_attachment
        rw [h]
        simp [hnr]
  · intro w cfg s b a rest hdl
    have hnone :
        embedPart w.imageSubtypeKnown w.httpBytes cfg.api_url a = none := by
      unfold embedPart
      rw [hdl]
      rfl
    simp [send_email_with_attachments, List.filterMap_cons, hnone]

/-- Witness for claim C4 (amended): with every download failing at the
network level, dropping the first of two declared attachments leaves the
sent email unchanged. -/
theorem C4_download_failure_handling_witness :
    send_email_with_attachments quietWorld cfgEx "s" "b"
        [imgAttachment, pdfAttachment] =
      send_email_with_attachments quietWorld cfgEx "s" "b" [pdfAttachment] :=
  C4_download_failure_handling.2 quietWorld cfgEx "s" "b" imgAttachment
    [pdfAttachment] (by decide)

/-- Claim C5: `send_email_with_attachments` reports success exactly when
the `msmtp` invocation exits with code zero; a non-zero exit or an
exception while invoking it yields `false`, and the model is a total
function, never propagating a failure. -/
theorem C5_send_true_iff_zero_exit (w : World) (cfg : Config) (s b : String)
    (atts : List Attachment) :
    (send_email_with_attachments w cfg s b atts).2 = true ↔
      w.msmtpExit = some 0 := by
  unfold send_email_with_attachments runMsmtp
  cases h : w.msmtpExit with
  | none => simp
  | some rc =>
    by_cases hrc : rc = 0 <;> simp [hrc]

/-- Claim C6: every composed email carries the subject of the template
(name and number, or number alone when the name is empty, with the
formatted local timestamp), and at a zero timezone offset the epoch
milliseconds 1700000000000 render as "2023-11-14 22:13:20", giving the
spec round-trip subject for the Alice message. -/
theorem C6_subject_format :
    (∀ (w : World) (cfg : Config) (m : RawMessage) (em : OutboundEmail)
        (ok : Bool),
        process_message w cfg m = some (em, ok) →
          em.subject = spec_subject (msgSourceName m) (msgSourceNumber m)
            (formatTimestamp w.tzOffset (msgTimestamp m)))
    ∧ formatTimestamp 0 1700000000000 = "2023-11-14 22:13:20"
    ∧ (process_message quietWorld cfgEx aliceMsg).map (fun r => r.1.subject) =
        some "Signal Message from Alice (+15551234567) at 2023-11-14 22:13:20" := by
  refine ⟨?_, by decide, by decide⟩
  intro w cfg m em ok h
  unfold process_message at h
  dsimp only at h
  split at h
  · exact absurd h (by simp)
  · have h1 : _ = em := congrArg Prod.fst (Option.some.inj h)
    rw [← h1, send_email_fst]
    rfl

/-- Witness for claim C6 at the concrete Alice message. -/
theorem C6_subject_format_witness :
    ∃ em ok, process_message quietWorld cfgEx aliceMsg = some (em, ok) ∧
      em.subject = spec_subject "Alice" "+15551234567"
        (formatTimestamp 0 1700000000000) := by
  obtain ⟨em, ok, h⟩ : ∃ em ok,
      process_message quietWorld cfgEx aliceMsg = some (em, ok) := ⟨_, _, rfl⟩
  exact ⟨em, ok, h, C6_subject_format.1 quietWorld cfgEx aliceMsg em ok h⟩

/-- Claim C7: every composed email carries the body of the fixed template,
with the From, Time, Message (text or no-message placeholder) and
Attachments sections, the latter listing each declared attachment in order
from index 1 with its type-or-unknown and size-or-unknown, or the
no-attachments placeholder. -/
theorem C7_body_format (w : World) (cfg : Config) (m : RawMessage)
    (em : OutboundEmail) (ok : Bool)
    (h : process_message w cfg m = some (em, ok)) :
    em.body = spec_body (fromLabel (msgSourceName m) (msgSourceNumber m))
      (formatTimestamp w.tzOffset (msgTimestamp m)) (msgContent m)
      (msgAttachments m) := by
  unfold process_message at h
  dsimp only at h
  split at h
  · exact absurd h (by simp)
  · have h1 : _ = em := congrArg Prod.fst (Option.some.inj h)
    rw [← h1, send_email_fst]
    unfold spec_body spec_attachmentSection
    by_cases ha : msgAttachments m = []
    · simp [ha]
    · simp [ha, attachmentListing_eq_join]

set_option maxRecDepth 8192 in
/-- Witness for claim C7 at a concrete message with two declared
attachments, one with a missing size. -/
theorem C7_body_format_witness :
    ∃ em ok, process_message quietWorld cfgEx twoAttachmentMsg = some (em, ok) ∧
      em.body = "\nFrom: +15551234567\nTime: 2023-11-14 22:13:20\n\nMessage:\n<no message>\n\nAttachments:\n[1] Type: image/png\n    Size: 5 bytes\n[2] Type: application/pdf\n    Size: unknown bytes\n" := by
  obtain ⟨em, ok, h⟩ : ∃ em ok,
      process_message quietWorld cfgEx twoAttachmentMsg = some (em, ok) :=
    ⟨_, _, rfl⟩
  refine ⟨em, ok, h, ?_⟩
  rw [C7_body_format quietWorld cfgEx twoAttachmentMsg em ok h]
  decide

/-- Counterexample to claim C8 as stated: a response with the non-2xx
status 300 carrying a decodable body is not treated as a failed fetch;
`receive_messages` returns the decoded list and the cycle processes it. -/
theorem C8_non2xx_receive_counterexample :
    receive_messages status300World cfgEx = some [aliceMsg]
      ∧ ¬ (200 ≤ 300 ∧ 300 < 300)
      ∧ (cycleReports ⟨false, false, status300World⟩ cfgEx).length = 1 := by
  refine ⟨by decide, by decide, by decide⟩

/-- Claim C8 (amended): `receive_messages` returns the decoded list for any
response whose status does not raise (all statuses outside 4xx and 5xx,
hence all 2xx) and fails on a network error or a 4xx or 5xx status; a
failed fetch makes the iteration process no message, and a non-interrupted
iteration always continues into the rest of the loop. -/
theorem C8_receive_failure_handling :
    (∀ (w : World) (cfg : Config) (st : Nat) (d : Option (List RawMessage)),
        w.httpJson (receiveUrl cfg) = HttpResult.resp st d →
          ((¬ raisesForStatus st → receive_messages w cfg = d)
            ∧ (raisesForStatus st → receive_messages w cfg = none)))
    ∧ (∀ (w : World) (cfg : Config),
        w.httpJson (receiveUrl cfg) = HttpResult.netErr →
          receive_messages w cfg = none)
    ∧ (∀ (c : CycleInput) (cfg : Config),
        receive_messages c.world cfg = none → cycleReports c cfg = [])
    ∧ (∀ (cfg : Config) (c : CycleInput) (rest : List CycleInput),
        c.interrupt = false →
          runLoop cfg (c :: rest) =
            ((if c.bodyError then [] else cycleReports c cfg) ::
                (runLoop cfg rest).1,
              (runLoop cfg rest).2)) := by
  refine ⟨?_, ?_, ?_, ?_⟩
  · intro w cfg st d h
    constructor
    · intro hnr
      unfold receive_messages
      rw [h]
      simp [hnr]
    · intro hr
      unfold receive_messages
      rw [h]
      simp [hr]
  · intro w cfg h
    unfold receive_messages
    rw [h]
  · intro c cfg h
    unfold cycleReports
    rw [h]
  · intro cfg c rest hI
    simp [runLoop, hI]

/-- Witness for claim C8 (amended): a network-level fetch failure yields no
messages and an empty cycle report. -/
theorem C8_receive_failure_handling_witness :
    receive_messages quietWorld cfgEx = none
      ∧ cycleReports ⟨false, false, quietWorld⟩ cfgEx = [] := by
  have h1 := C8_receive_failure_handling.2.1 quietWorld cfgEx rfl
  exact ⟨h1,
    C8_receive_failure_handling.2.2.1 ⟨false, false, quietWorld⟩ cfgEx h1⟩

/-- Claim C9: the loop reaches the stopped state exactly when some consumed
cycle input carries an interrupt; without interrupts every iteration
completes and is followed by the next one, whatever the fetch results,
message contents, body exceptions or send outcomes of each cycle. -/
theorem C9_loop_stops_only_on_interrupt :
    (∀ (cfg : Config) (cs : List CycleInput),
        ((runLoop cfg cs).2 = LoopStatus.stopped ↔
          cs.any (fun c => c.interrupt) = true))
    ∧ (∀ (cfg : Config) (cs : List CycleInput),
        (∀ c ∈ cs, c.interrupt = false) →
          (runLoop cfg cs).1.length = cs.length) := by
  constructor
  · intro cfg cs
    induction cs with
    | nil => simp [runLoop]
    | cons c rest ih =>
      cases hI : c.interrupt with
      | true => simp [runLoop, hI]
      | false => simp [runLoop, hI, ih]
  · intro cfg cs
    induction cs with
    | nil =>
      intro _
      simp [runLoop]
    | cons c rest ih =>
      intro h
      have hc : c.interrupt = false := h c (List.mem_cons_self c rest)
      have hrest := ih (fun x hx => h x (List.mem_cons_of_mem c hx))
      simp [runLoop, hc, hrest]

/-- Witness for claim C9: two interrupt-free cycles, the first with a body
exception, both complete. -/
theorem C9_loop_stops_only_on_interrupt_witness :
    (runLoop cfgEx
        [⟨false, true, quietWorld⟩, ⟨false, false, quietWorld⟩]).1.length =
      2 :=
  C9_loop_stops_only_on_interrupt.2 cfgEx _ (by decide)

/-- Claim C10: a download that succeeds with zero bytes is treated exactly
like a failed download by the embed decision, and no part is embedded for
it, whatever the declared content-type (in particular for image types) and
whatever the subtype detector: the embed condition tests the truthiness of
the content, not download success. -/
theorem C10_empty_content_not_embedded (known : List Nat → Bool)
    (a : Attachment) :
    embedFromContent known (some []) a = embedFromContent known none a
      ∧ embedFromContent known (some []) a = none :=
  ⟨rfl, rfl⟩

end SignalBridge
